import Mathlib

set_option synthInstance.maxHeartbeats 1000000

/-
Shallow embedding of the capability detector of the browser-extension-capabilities
repository (src/index.ts) together with theorems checking the specification claims.

Modelling conventions:
- TypeScript optional fields become Option; absent means undefined.
- Record<string, unknown> values are modelled by the list of their keys, since the
  detector only tests their presence and their number of keys.
- String predicates: value.trim().length > 0 holds exactly when some character of
  the value is not whitespace, which is how isNonEmptyString is rendered below.
  The Lean whitespace test and the JavaScript trim agree on ASCII whitespace.
- The JavaScript Map is modelled by an association list in insertion order; Map.set
  overwrites in place when the key is present and appends otherwise (mapSet below).
- Array.prototype.sort is a stable sort and the comparator lowercases the key and
  uses localeCompare; this is modelled as case-insensitive codepoint lexicographic
  order (charLexLE on the lowercased character lists). On every sort key this
  program can produce, the first differing position of two distinct keys is a
  letter versus letter comparison, where ICU collation and codepoint order agree;
  all keys of one run are pairwise distinct, so a stable sort is modelled by
  List.insertionSort.
- The two file loaders are modelled over an abstract filesystem
  (a function from path to Option content, none meaning the path does not exist)
  and an abstract JSON parse function (from content to Except, the error being
  the underlying parse failure). Logging (console.warn / console.error) is an
  observability side channel and is not modelled.
-/

/- The manifest data model, following the ExtensionManifest interface.
   The default_icon fields (string or Record union) are never read by the
   detector and are omitted. -/

structure ActionUI where
  default_popup : Option String := none
  default_title : Option String := none
deriving DecidableEq

structure BackgroundSpec where
  page : Option String := none
  scripts : Option (List String) := none
  service_worker : Option String := none
deriving DecidableEq

structure ContentScript where
  «matches» : List String := []
  js : Option (List String) := none
  css : Option (List String) := none
  run_at : Option String := none
deriving DecidableEq

structure OptionsUI where
  page : String
  open_in_tab : Option Bool := none
deriving DecidableEq

structure SidePanel where
  default_path : String
  default_title : Option String := none
deriving DecidableEq

structure SidebarAction where
  default_panel : Option String := none
  default_title : Option String := none
deriving DecidableEq

structure ChromeUrlOverrides where
  newtab : Option String := none
  bookmarks : Option String := none
  history : Option String := none
deriving DecidableEq

structure SandboxSpec where
  pages : List String := []
deriving DecidableEq

/- web_accessible_resources entries: MV2 plain strings or MV3 objects. -/
inductive WebAccessibleResource where
  | str (value : String)
  | obj (resources : List String) («matches» : Option (List String))
        (extension_ids : Option (List String)) (use_dynamic_url : Option Bool)
deriving DecidableEq

structure OmniboxSpec where
  keyword : String
deriving DecidableEq

structure ChromeSettingsOverrides where
  homepage : Option String := none
  search_provider : Option (List String) := none
  startup_pages : Option (List String) := none
deriving DecidableEq

structure RuleResource where
  id : String
  enabled : Option Bool := none
  path : String
deriving DecidableEq

structure DeclarativeNetRequest where
  rule_resources : Option (List RuleResource) := none
deriving DecidableEq

structure TtsEngine where
  voices : Option (List (List String)) := none
deriving DecidableEq

structure ExtensionManifest where
  manifest_version : Nat := 3
  name : String := ""
  version : String := ""
  description : Option String := none
  action : Option ActionUI := none
  browser_action : Option ActionUI := none
  page_action : Option ActionUI := none
  background : Option BackgroundSpec := none
  content_scripts : Option (List ContentScript) := none
  devtools_page : Option String := none
  options_ui : Option OptionsUI := none
  options_page : Option String := none
  side_panel : Option SidePanel := none
  sidebar_action : Option SidebarAction := none
  chrome_url_overrides : Option ChromeUrlOverrides := none
  sandbox : Option SandboxSpec := none
  web_accessible_resources : Option (List WebAccessibleResource) := none
  omnibox : Option OmniboxSpec := none
  commands : Option (List String) := none
  chrome_settings_overrides : Option ChromeSettingsOverrides := none
  declarative_net_request : Option DeclarativeNetRequest := none
  tts_engine : Option TtsEngine := none
  permissions : Option (List String) := none
  host_permissions : Option (List String) := none
deriving DecidableEq

structure CapabilityCompatibility where
  safari : Option Bool := none
  notes : Option String := none
  docs : Option String := none
deriving DecidableEq

structure ExtensionCapability where
  capability : String
  description : String
  id : Option String := none
  fields : Option (List String) := none
  compatibility : Option CapabilityCompatibility := none
deriving DecidableEq

structure GetCapabilitiesOptions where
  strict : Bool := false
  includeFields : Bool := false
  normalizeNames : Bool := false
  includeCompatibility : Bool := false
deriving DecidableEq

/-- The static CAP_COMPAT record of src/index.ts, as a lookup from key to entry. -/
def CAP_COMPAT : String → Option CapabilityCompatibility
  | "background" => some { safari := some true }
  | "content_scripts" => some { safari := some true }
  | "popup" => some { safari := some true }
  | "action_popup" => some { safari := some true }
  | "sidebar" => some
      { safari := some false
        notes := some ("Chromium uses side_panel; Firefox uses sidebar_action. Safari does not provide an equivalent sidebar UI API.")
        docs := some ("https://developer.mozilla.org/docs/Mozilla/Add-ons/WebExtensions/user_interface") }
  | "devtools_page" => some { safari := some true }
  | "options" => some { safari := some true }
  | "web_accessible_resources" => some { safari := some true }
  | "commands" => some { safari := some true }
  | "omnibox" => some
      { safari := some false
        notes := some ("Safari does not support Omnibox keyword for WebExtensions.")
        docs := some ("https://developer.mozilla.org/docs/Mozilla/Add-ons/WebExtensions/manifest.json/omnibox") }
  | "chrome_url_overrides.newtab" => some
      { safari := some false
        notes := some ("Safari does not support chrome_url_overrides.")
        docs := some ("https://developer.mozilla.org/docs/Mozilla/Add-ons/WebExtensions/manifest.json/chrome_url_overrides") }
  | "chrome_url_overrides.bookmarks" => some
      { safari := some false
        notes := some ("Safari does not support bookmarks/history overrides via chrome_url_overrides.")
        docs := some ("https://developer.mozilla.org/docs/Mozilla/Add-ons/WebExtensions/manifest.json/chrome_url_overrides") }
  | "chrome_url_overrides.history" => some
      { safari := some false
        notes := some ("Safari does not support bookmarks/history overrides via chrome_url_overrides.")
        docs := some ("https://developer.mozilla.org/docs/Mozilla/Add-ons/WebExtensions/manifest.json/chrome_url_overrides") }
  | "declarative_net_request" => some
      { safari := some false
        notes := some ("Safari uses a different content blocking model; DNR is not supported.")
        docs := some ("https://developer.chrome.com/docs/extensions/reference/declarativeNetRequest/") }
  | "tts_engine" => some
      { safari := some false
        notes := some ("Speech engine APIs are not available for Safari WebExtensions.")
        docs := some ("https://developer.mozilla.org/docs/Mozilla/Add-ons/WebExtensions/manifest.json/tts_engine") }
  | _ => none

/-- Source isNonEmptyString: the value is a string and value.trim().length > 0.
    A trimmed string is nonempty exactly when some character is not whitespace. -/
def isNonEmptyString (s : String) : Bool :=
  s.data.any (fun c => !c.isWhitespace)

/-- Source hasNonEmptyString: the value is an array with some nonempty-string element.
    none models a value that is not an array (undefined). -/
def hasNonEmptyString (arr : Option (List String)) : Bool :=
  arr.any (fun l => l.any (fun v => isNonEmptyString v))

/-- JavaScript Map.set on an insertion-ordered association list: overwrite in place
    when the key is already present, append otherwise. -/
def mapSet (map : List (String × ExtensionCapability)) (key : String)
    (entry : ExtensionCapability) : List (String × ExtensionCapability) :=
  if map.any (fun p => p.1 == key) then
    map.map (fun p => if p.1 == key then (key, entry) else p)
  else
    map ++ [(key, entry)]

/-- The record built by pushCapability before it is stored: the mandatory pair plus
    the optional fields, exactly as the source guards them
    (fields when includeFields and fields?.length, id when normalizeNames and
    normalizedId is a nonempty string, compatibility from CAP_COMPAT keyed by
    normalizedId ?? key when includeCompatibility and the entry exists). -/
def mkCapabilityEntry (key description : String) (opts : GetCapabilitiesOptions)
    (fields : Option (List String)) (normalizedId : Option String) : ExtensionCapability :=
  { capability := key
    description := description
    fields := if opts.includeFields && fields.any (fun l => !l.isEmpty) then fields else none
    id := if opts.normalizeNames && normalizedId.any (fun s => s != "") then normalizedId else none
    compatibility := if opts.includeCompatibility then CAP_COMPAT (normalizedId.getD key) else none }

/-- Source pushCapability: build the entry and store it under key. -/
def pushCapability (map : List (String × ExtensionCapability)) (key description : String)
    (opts : GetCapabilitiesOptions) (fields : Option (List String))
    (normalizedId : Option String) : List (String × ExtensionCapability) :=
  mapSet map key (mkCapabilityEntry key description opts fields normalizedId)

/- Trigger predicates: one per capability rule, each transcribing the condition of
   the corresponding if branch of analyzeExtensionManifest. -/

/-- Background: manifest.background is present and page, service_worker or some
    scripts element is a nonempty string. -/
def backgroundTrigger (m : ExtensionManifest) : Bool :=
  match m.background with
  | none => false
  | some bg =>
      bg.page.any isNonEmptyString || bg.service_worker.any isNonEmptyString ||
        hasNonEmptyString bg.scripts

/-- Content scripts: content_scripts is an array with length truthy. -/
def contentScriptsTrigger (m : ExtensionManifest) : Bool :=
  match m.content_scripts with
  | none => false
  | some l => decide (0 < l.length)

/-- Popup: any of the three action dialects has a nonempty default_popup. -/
def popupTrigger (m : ExtensionManifest) : Bool :=
  (m.action.bind (fun a => a.default_popup)).any isNonEmptyString ||
    (m.browser_action.bind (fun a => a.default_popup)).any isNonEmptyString ||
    (m.page_action.bind (fun a => a.default_popup)).any isNonEmptyString

/-- Sidebar: side_panel.default_path or sidebar_action.default_panel nonempty. -/
def sidebarTrigger (m : ExtensionManifest) : Bool :=
  (m.side_panel.map (fun sp => sp.default_path)).any isNonEmptyString ||
    (m.sidebar_action.bind (fun sa => sa.default_panel)).any isNonEmptyString

/-- DevTools: devtools_page is a nonempty string. -/
def devtoolsTrigger (m : ExtensionManifest) : Bool :=
  m.devtools_page.any isNonEmptyString

/-- Options: options_ui.page or options_page nonempty. -/
def optionsTrigger (m : ExtensionManifest) : Bool :=
  (m.options_ui.map (fun o => o.page)).any isNonEmptyString ||
    m.options_page.any isNonEmptyString

/-- New tab override: chrome_url_overrides.newtab nonempty. -/
def newtabTrigger (m : ExtensionManifest) : Bool :=
  (m.chrome_url_overrides.bind (fun o => o.newtab)).any isNonEmptyString

/-- Bookmarks override: chrome_url_overrides.bookmarks nonempty. -/
def bookmarksTrigger (m : ExtensionManifest) : Bool :=
  (m.chrome_url_overrides.bind (fun o => o.bookmarks)).any isNonEmptyString

/-- History override: chrome_url_overrides.history nonempty. -/
def historyTrigger (m : ExtensionManifest) : Bool :=
  (m.chrome_url_overrides.bind (fun o => o.history)).any isNonEmptyString

/-- Sandbox: sandbox.pages is an array with a nonempty-string element. -/
def sandboxTrigger (m : ExtensionManifest) : Bool :=
  match m.sandbox with
  | none => false
  | some sb => sb.pages.any (fun p => isNonEmptyString p)

/-- The per-item callback of the web_accessible_resources check: a nonempty string
    (MV2 form) or an object whose resources array has a nonempty-string element
    (MV3 form). -/
def warItemNonEmpty : WebAccessibleResource → Bool
  | WebAccessibleResource.str v => isNonEmptyString v
  | WebAccessibleResource.obj resources _ _ _ => resources.any (fun r => isNonEmptyString r)

/-- Web-accessible resources: a nonempty array in which some item is a nonempty
    string (MV2) or an object whose resources array has a nonempty string (MV3). -/
def webResourcesTrigger (m : ExtensionManifest) : Bool :=
  match m.web_accessible_resources with
  | none => false
  | some war => decide (0 < war.length) && war.any warItemNonEmpty

/-- Omnibox: manifest.omnibox?.keyword is truthy, that is, a nonempty string
    (whitespace-only strings are truthy in JavaScript). -/
def omniboxTrigger (m : ExtensionManifest) : Bool :=
  match m.omnibox with
  | none => false
  | some ob => ob.keyword != ""

/-- Commands: the commands object is present and has at least one key. -/
def commandsTrigger (m : ExtensionManifest) : Bool :=
  match m.commands with
  | none => false
  | some keys => decide (0 < keys.length)

/-- Settings homepage: chrome_settings_overrides.homepage is truthy
    (a nonempty string, including whitespace-only strings). -/
def settingsHomepageTrigger (m : ExtensionManifest) : Bool :=
  (m.chrome_settings_overrides.bind (fun o => o.homepage)).any (fun h => h != "")

/-- Settings search provider: chrome_settings_overrides.search_provider is truthy
    (any object, even with no keys). -/
def settingsSearchProviderTrigger (m : ExtensionManifest) : Bool :=
  (m.chrome_settings_overrides.bind (fun o => o.search_provider)).isSome

/-- Settings startup pages: chrome_settings_overrides.startup_pages is an array of
    positive length. -/
def settingsStartupPagesTrigger (m : ExtensionManifest) : Bool :=
  (m.chrome_settings_overrides.bind (fun o => o.startup_pages)).any
    (fun l => decide (0 < l.length))

/-- Declarative net request: rule_resources is present with positive length. -/
def declarativeNetRequestTrigger (m : ExtensionManifest) : Bool :=
  (m.declarative_net_request.bind (fun o => o.rule_resources)).any
    (fun l => decide (0 < l.length))

/-- TTS engine: tts_engine.voices is an array of positive length. -/
def ttsEngineTrigger (m : ExtensionManifest) : Bool :=
  (m.tts_engine.bind (fun o => o.voices)).any (fun l => decide (0 < l.length))

/-- Some capability rule of the detector fires on this manifest. -/
def anyTrigger (m : ExtensionManifest) : Bool :=
  backgroundTrigger m || contentScriptsTrigger m || popupTrigger m || sidebarTrigger m ||
    devtoolsTrigger m || optionsTrigger m || newtabTrigger m || bookmarksTrigger m ||
    historyTrigger m || sandboxTrigger m || webResourcesTrigger m || omniboxTrigger m ||
    commandsTrigger m || settingsHomepageTrigger m || settingsSearchProviderTrigger m ||
    settingsStartupPagesTrigger m || declarativeNetRequestTrigger m || ttsEngineTrigger m

/-- One guarded rule application of the detector body: when the trigger condition
    holds, push the capability with its fixed description, full field list and
    normalized id; otherwise leave the map unchanged. The map argument comes last
    so that the rule applications chain in source order. -/
def applyRule (opts : GetCapabilitiesOptions) (cond : Bool) (key description : String)
    (fields : List String) (normalizedId : String)
    (map : List (String × ExtensionCapability)) : List (String × ExtensionCapability) :=
  if cond then pushCapability map key description opts (some fields) (some normalizedId)
  else map

/-- The capabilityMap of analyzeExtensionManifest after all rule branches ran,
    in source order. -/
def buildCapabilityMap (manifest : ExtensionManifest) (opts : GetCapabilitiesOptions) :
    List (String × ExtensionCapability) :=
  ([] : List (String × ExtensionCapability))
  |> applyRule opts (backgroundTrigger manifest) ("background")
      ("Background service worker or page for persistent functionality")
      ["background.page", "background.scripts", "background.service_worker"] ("background")
  |> applyRule opts (contentScriptsTrigger manifest) ("content_scripts")
      ("Content scripts that run on web pages to interact with page content")
      ["content_scripts"] ("content_scripts")
  |> applyRule opts (popupTrigger manifest) ("popup") ("Toolbar popup UI")
      ["action.default_popup", "browser_action.default_popup", "page_action.default_popup"]
      ("action_popup")
  |> applyRule opts (sidebarTrigger manifest) ("sidebar") ("Side panel UI")
      ["side_panel.default_path", "sidebar_action.default_panel"] ("sidebar")
  |> applyRule opts (devtoolsTrigger manifest) ("devtools") ("Developer tools panel")
      ["devtools_page"] ("devtools_page")
  |> applyRule opts (optionsTrigger manifest) ("options")
      ("Options page for user configuration") ["options_ui.page", "options_page"] ("options")
  |> applyRule opts (newtabTrigger manifest) ("newtab") ("New tab page override")
      ["chrome_url_overrides.newtab"] ("chrome_url_overrides.newtab")
  |> applyRule opts (bookmarksTrigger manifest) ("bookmarks") ("Bookmarks page override")
      ["chrome_url_overrides.bookmarks"] ("chrome_url_overrides.bookmarks")
  |> applyRule opts (historyTrigger manifest) ("history") ("History page override")
      ["chrome_url_overrides.history"] ("chrome_url_overrides.history")
  |> applyRule opts (sandboxTrigger manifest) ("sandbox")
      ("Sandboxed pages for isolated execution") ["sandbox.pages"] ("sandbox")
  |> applyRule opts (webResourcesTrigger manifest) ("web_resources")
      ("Web-accessible resources exposed to web pages") ["web_accessible_resources"]
      ("web_accessible_resources")
  |> applyRule opts (omniboxTrigger manifest) ("omnibox") ("Omnibox keyword integration")
      ["omnibox.keyword"] ("omnibox")
  |> applyRule opts (commandsTrigger manifest) ("commands")
      ("Keyboard shortcuts and command actions") ["commands"] ("commands")
  |> applyRule opts (settingsHomepageTrigger manifest) ("settings_homepage")
      ("Browser settings override: homepage") ["chrome_settings_overrides.homepage"]
      ("chrome_settings_overrides.homepage")
  |> applyRule opts (settingsSearchProviderTrigger manifest) ("settings_search_provider")
      ("Browser settings override: search provider")
      ["chrome_settings_overrides.search_provider"] ("chrome_settings_overrides.search_provider")
  |> applyRule opts (settingsStartupPagesTrigger manifest) ("settings_startup_pages")
      ("Browser settings override: startup pages") ["chrome_settings_overrides.startup_pages"]
      ("chrome_settings_overrides.startup_pages")
  |> applyRule opts (declarativeNetRequestTrigger manifest) ("declarative_net_request")
      ("Declarative network request rules") ["declarative_net_request.rule_resources"]
      ("declarative_net_request")
  |> applyRule opts (ttsEngineTrigger manifest) ("tts_engine") ("Text-to-speech engine")
      ["tts_engine.voices"] ("tts_engine")

/-- Case-insensitive codepoint lexicographic order on character lists, the model of
    lowercased localeCompare on the sort keys of this program. -/
def charLexLE : List Char → List Char → Bool
  | [], _ => true
  | _ :: _, [] => false
  | a :: as, b :: bs => if a = b then charLexLE as bs else decide (a < b)

/-- The sort key of the final comparator: (a.id ?? a.capability).toLowerCase(). -/
def capabilitySortKey (c : ExtensionCapability) : List Char :=
  (c.id.getD c.capability).data.map Char.toLower

/-- The comparator of the final sort of analyzeExtensionManifest. -/
def capabilityLE (a b : ExtensionCapability) : Prop :=
  charLexLE (capabilitySortKey a) (capabilitySortKey b) = true

instance : DecidableRel capabilityLE := fun a b =>
  inferInstanceAs (Decidable (charLexLE (capabilitySortKey a) (capabilitySortKey b) = true))

/-- Source analyzeExtensionManifest: run all rules, then either sort the collected
    records or return the single fallback record. -/
def analyzeExtensionManifest (manifest : ExtensionManifest)
    (options : GetCapabilitiesOptions) : List ExtensionCapability :=
  if 0 < (buildCapabilityMap manifest options).length then
    List.insertionSort capabilityLE ((buildCapabilityMap manifest options).map Prod.snd)
  else
    [{ capability := "manifest"
       description := "Basic extension manifest configuration"
       id := if options.normalizeNames then some ("manifest") else none
       fields := if options.includeFields then some [] else none }]

/-- The failures a loader can surface in strict mode: a descriptive not-found error
    naming the path, or the underlying JSON parse failure propagated unchanged. -/
inductive LoaderError where
  | notFound (message : String)
  | parseFailure (error : String)
deriving DecidableEq

/-- Source getExtensionCapabilities (synchronous loader). fsFiles models the
    filesystem: none when existsSync is false, otherwise the text readFileSync
    returns. parseJson models JSON.parse on that text. The not-found Error thrown
    under strict is rethrown by the surrounding catch, so it reaches the caller. -/
def getExtensionCapabilities (fsFiles : String → Option String)
    (parseJson : String → Except String ExtensionManifest)
    (manifestPath : String) (options : GetCapabilitiesOptions) :
    Except LoaderError (List ExtensionCapability) :=
  match fsFiles manifestPath with
  | none =>
      if options.strict then
        Except.error (LoaderError.notFound ("Manifest file not found at: " ++ manifestPath))
      else
        Except.ok [{ capability := "manifest"
                     description := "Basic extension manifest configuration"
                     id := if options.normalizeNames then some ("manifest") else none
                     fields := if options.includeFields then some [] else none }]
  | some manifestContent =>
      match parseJson manifestContent with
      | Except.error err =>
          if options.strict then Except.error (LoaderError.parseFailure err)
          else
            Except.ok [{ capability := "manifest"
                         description := "Basic extension manifest configuration"
                         id := if options.normalizeNames then some ("manifest") else none
                         fields := if options.includeFields then some [] else none }]
      | Except.ok manifest => Except.ok (analyzeExtensionManifest manifest options)

/-- Source getExtensionCapabilitiesAsync. The access check replaces existsSync and
    the awaited readFile replaces readFileSync; the observable contract over the
    abstract filesystem is the same shape as the synchronous loader. -/
def getExtensionCapabilitiesAsync (fsFiles : String → Option String)
    (parseJson : String → Except String ExtensionManifest)
    (manifestPath : String) (options : GetCapabilitiesOptions) :
    Except LoaderError (List ExtensionCapability) :=
  match fsFiles manifestPath with
  | none =>
      if options.strict then
        Except.error (LoaderError.notFound ("Manifest file not found at: " ++ manifestPath))
      else
        Except.ok [{ capability := "manifest"
                     description := "Basic extension manifest configuration"
                     id := if options.normalizeNames then some ("manifest") else none
                     fields := if options.includeFields then some [] else none }]
  | some manifestContent =>
      match parseJson manifestContent with
      | Except.error err =>
          if options.strict then Except.error (LoaderError.parseFailure err)
          else
            Except.ok [{ capability := "manifest"
                         description := "Basic extension manifest configuration"
                         id := if options.normalizeNames then some ("manifest") else none
                         fields := if options.includeFields then some [] else none }]
      | Except.ok manifest => Except.ok (analyzeExtensionManifest manifest options)

/- Order properties of the sort comparator. -/

/-- The lexicographic comparator is total. -/
theorem charLexLE_total (a : List Char) : ∀ b, charLexLE a b = true ∨ charLexLE b a = true := by
  induction a with
  | nil => intro b; left; rfl
  | cons x xs ih =>
      intro b
      cases b with
      | nil => right; rfl
      | cons y ys =>
          by_cases hxy : x = y
          · subst hxy
            rcases ih ys with h | h
            · left; simp [charLexLE, h]
            · right; simp [charLexLE, h]
          · rcases lt_or_gt_of_ne hxy with h | h
            · left; simp [charLexLE, hxy, h]
            · right
              have hyx : y ≠ x := fun he => hxy he.symm
              simp [charLexLE, hyx, h]

/-- The lexicographic comparator is transitive. -/
theorem charLexLE_trans (a : List Char) :
    ∀ b c, charLexLE a b = true → charLexLE b c = true → charLexLE a c = true := by
  induction a with
  | nil => intro b c _ _; rfl
  | cons x xs ih =>
      intro b c hab hbc
      cases b with
      | nil => simp [charLexLE] at hab
      | cons y ys =>
          cases c with
          | nil => simp [charLexLE] at hbc
          | cons z zs =>
              by_cases hxy : x = y <;> by_cases hyz : y = z
              · subst hxy; subst hyz
                simp [charLexLE] at hab hbc ⊢
                exact ih ys zs hab hbc
              · subst hxy
                simp [charLexLE, hyz] at hbc ⊢
                exact hbc
              · subst hyz
                simp [charLexLE, hxy] at hab ⊢
                exact hab
              · simp [charLexLE, hxy] at hab
                simp [charLexLE, hyz] at hbc
                have hxz : x < z := lt_trans hab hbc
                simp [charLexLE, ne_of_lt hxz, hxz]

instance : IsTotal ExtensionCapability capabilityLE :=
  ⟨fun a b => charLexLE_total (capabilitySortKey a) (capabilitySortKey b)⟩

instance : IsTrans ExtensionCapability capabilityLE :=
  ⟨fun _ _ _ h1 h2 => charLexLE_trans _ _ _ h1 h2⟩

/- Invariants of the capability map. -/

/-- The invariant of the capability map: keys are pairwise distinct, and every
    stored entry carries its own key in its capability field. -/
def MapKeysOK (m : List (String × ExtensionCapability)) : Prop :=
  (m.map Prod.fst).Nodup ∧ ∀ p ∈ m, p.2.capability = p.1

/-- Overwriting an existing key leaves the key list unchanged. -/
theorem keys_mapSet_replace (m : List (String × ExtensionCapability)) (k : String)
    (v : ExtensionCapability) (h : m.any (fun p => p.1 == k) = true) :
    (mapSet m k v).map Prod.fst = m.map Prod.fst := by
  unfold mapSet
  rw [if_pos h, List.map_map]
  apply List.map_congr_left
  intro p _
  by_cases hk : p.1 = k
  · simp [hk]
  · simp [hk]

/-- mapSet preserves the capability-map invariant when the stored entry carries
    its key. -/
theorem mapKeysOK_mapSet (m : List (String × ExtensionCapability)) (k : String)
    (v : ExtensionCapability) (hv : v.capability = k) (h : MapKeysOK m) :
    MapKeysOK (mapSet m k v) := by
  obtain ⟨h1, h2⟩ := h
  cases hany : m.any (fun p => p.1 == k) with
  | true =>
      constructor
      · rw [keys_mapSet_replace m k v hany]; exact h1
      · intro p hp
        unfold mapSet at hp
        rw [if_pos hany] at hp
        rcases List.mem_map.mp hp with ⟨q, hq, hfq⟩
        by_cases hqk : q.1 = k
        · rw [← hfq]; simp [hqk, hv]
        · rw [← hfq]; simp [hqk]; exact h2 q hq
  | false =>
      have hnot : ∀ p ∈ m, p.1 ≠ k := by
        intro p hp
        have := List.any_eq_false.mp hany p hp
        simpa using this
      constructor
      · unfold mapSet
        rw [if_neg (by simp [hany]), List.map_append]
        refine List.Nodup.append h1 (by simp) ?_
        intro a ha hb
        simp at hb
        rcases List.mem_map.mp ha with ⟨q, hq, hfq⟩
        exact hnot q hq (hfq.trans hb)
      · intro p hp
        unfold mapSet at hp
        rw [if_neg (by simp [hany])] at hp
        rcases List.mem_append.mp hp with hl | hr
        · exact h2 p hl
        · simp at hr; rw [hr, hv]

/-- A guarded rule application preserves the capability-map invariant. -/
theorem mapKeysOK_applyRule (opts : GetCapabilitiesOptions) (c : Bool) (k d : String)
    (f : List String) (n : String) (map : List (String × ExtensionCapability))
    (h : MapKeysOK map) : MapKeysOK (applyRule opts c k d f n map) := by
  unfold applyRule
  split
  · exact mapKeysOK_mapSet map k _ rfl h
  · exact h

/-- The capability map built by the detector satisfies the invariant. -/
theorem mapKeysOK_build (m : ExtensionManifest) (opts : GetCapabilitiesOptions) :
    MapKeysOK (buildCapabilityMap m opts) := by
  unfold buildCapabilityMap
  repeat apply mapKeysOK_applyRule
  exact ⟨List.nodup_nil, by simp⟩

/-- The key just stored by mapSet is among the keys. -/
theorem mem_keys_mapSet_self (m : List (String × ExtensionCapability)) (k : String)
    (v : ExtensionCapability) : k ∈ (mapSet m k v).map Prod.fst := by
  unfold mapSet
  split
  · next h =>
      rcases List.any_eq_true.mp h with ⟨p, hp, hpk⟩
      rw [List.map_map]
      refine List.mem_map.mpr ⟨p, hp, ?_⟩
      simp only [Function.comp]
      rw [if_pos hpk]
  · simp

/-- mapSet keeps every existing key. -/
theorem mem_keys_mapSet_mono (m : List (String × ExtensionCapability)) (k : String)
    (v : ExtensionCapability) (k2 : String) (h : k2 ∈ m.map Prod.fst) :
    k2 ∈ (mapSet m k v).map Prod.fst := by
  cases hany : m.any (fun p => p.1 == k) with
  | true => rw [keys_mapSet_replace m k v hany]; exact h
  | false =>
      unfold mapSet
      rw [if_neg (by simp [hany]), List.map_append]
      exact List.mem_append.mpr (Or.inl h)

/-- A rule whose trigger holds leaves its key in the map. -/
theorem mem_keys_applyRule_self (opts : GetCapabilitiesOptions) (k d : String)
    (f : List String) (n : String) (map : List (String × ExtensionCapability)) :
    k ∈ (applyRule opts true k d f n map).map Prod.fst := by
  unfold applyRule pushCapability
  rw [if_pos rfl]
  exact mem_keys_mapSet_self map k _

/-- A rule application keeps every existing key. -/
theorem mem_keys_applyRule_mono (opts : GetCapabilitiesOptions) (c : Bool) (k d : String)
    (f : List String) (n : String) (map : List (String × ExtensionCapability)) (k2 : String)
    (h : k2 ∈ map.map Prod.fst) : k2 ∈ (applyRule opts c k d f n map).map Prod.fst := by
  unfold applyRule pushCapability
  split
  · exact mem_keys_mapSet_mono map k _ k2 h
  · exact h

/-- Every key of the built capability map appears as a capability of the detector
    output. -/
theorem cap_mem_analyze (m : ExtensionManifest) (opts : GetCapabilitiesOptions)
    (k : String) (hk : k ∈ (buildCapabilityMap m opts).map Prod.fst) :
    k ∈ (analyzeExtensionManifest m opts).map (fun r => r.capability) := by
  unfold analyzeExtensionManifest
  split
  · have hperm :=
      (List.perm_insertionSort capabilityLE ((buildCapabilityMap m opts).map Prod.snd)).map
        (fun r => r.capability)
    rw [hperm.mem_iff, List.map_map]
    have hcap := (mapKeysOK_build m opts).2
    have heq : List.map ((fun r => r.capability) ∘ Prod.snd) (buildCapabilityMap m opts) =
        (buildCapabilityMap m opts).map Prod.fst :=
      List.map_congr_left (fun p hp => hcap p hp)
    rw [heq]
    exact hk
  · next hneg =>
      have hnil : buildCapabilityMap m opts = [] := by
        cases hb : buildCapabilityMap m opts with
        | nil => rfl
        | cons a l => rw [hb] at hneg; simp at hneg
      rw [hnil] at hk
      simp at hk

/-- The detector output is sorted by the comparator. -/
theorem analyze_sorted (m : ExtensionManifest) (opts : GetCapabilitiesOptions) :
    List.Sorted capabilityLE (analyzeExtensionManifest m opts) := by
  unfold analyzeExtensionManifest
  split
  · exact List.sorted_insertionSort capabilityLE _
  · simp

/-- When no rule trigger holds, the detector returns exactly the fallback record,
    shaped by the requested options and never carrying compatibility. -/
theorem analyze_no_triggers (m : ExtensionManifest) (opts : GetCapabilitiesOptions)
    (h1 : backgroundTrigger m = false) (h2 : contentScriptsTrigger m = false)
    (h3 : popupTrigger m = false) (h4 : sidebarTrigger m = false)
    (h5 : devtoolsTrigger m = false) (h6 : optionsTrigger m = false)
    (h7 : newtabTrigger m = false) (h8 : bookmarksTrigger m = false)
    (h9 : historyTrigger m = false) (h10 : sandboxTrigger m = false)
    (h11 : webResourcesTrigger m = false) (h12 : omniboxTrigger m = false)
    (h13 : commandsTrigger m = false) (h14 : settingsHomepageTrigger m = false)
    (h15 : settingsSearchProviderTrigger m = false)
    (h16 : settingsStartupPagesTrigger m = false)
    (h17 : declarativeNetRequestTrigger m = false) (h18 : ttsEngineTrigger m = false) :
    analyzeExtensionManifest m opts =
      [{ capability := "manifest"
         description := "Basic extension manifest configuration"
         id := if opts.normalizeNames then some ("manifest") else none
         fields := if opts.includeFields then some [] else none
         compatibility := none }] := by
  have hb : buildCapabilityMap m opts = [] := by
    simp [buildCapabilityMap, applyRule, h1, h2, h3, h4, h5, h6, h7, h8, h9, h10, h11, h12,
      h13, h14, h15, h16, h17, h18]
  unfold analyzeExtensionManifest
  rw [hb]
  simp

/- Named manifests used by the claim scenarios. -/

/-- Manifest that fills every trigger field guarded by the nonempty-string
    predicate with one and the same string. -/
def whitespaceFieldsManifest (ws : String) : ExtensionManifest :=
  { action := some { default_popup := some ws }
    browser_action := some { default_popup := some ws }
    page_action := some { default_popup := some ws }
    background := some { page := some ws, scripts := some [ws], service_worker := some ws }
    devtools_page := some ws
    options_ui := some { page := ws }
    options_page := some ws
    side_panel := some { default_path := ws }
    sidebar_action := some { default_panel := some ws }
    chrome_url_overrides := some { newtab := some ws, bookmarks := some ws, history := some ws }
    sandbox := some { pages := [ws] }
    web_accessible_resources := some [WebAccessibleResource.str ws,
      WebAccessibleResource.obj [ws] none none none] }

/-- The manifest of the three-capability scenario. -/
def backgroundContentPopupManifest : ExtensionManifest :=
  { background := some { service_worker := some ("bg.js") }
    content_scripts := some [{ «matches» := ["<all_urls>"] }]
    action := some { default_popup := some ("p.html") } }

/-- The manifest of the sort-order scenario: devtools page plus action popup. -/
def devtoolsPopupManifest : ExtensionManifest :=
  { action := some { default_popup := some ("p.html") }
    devtools_page := some ("dt.html") }

/-- MV2 web_accessible_resources scenario: a plain string entry. -/
def mv2WarManifest : ExtensionManifest :=
  { web_accessible_resources := some [WebAccessibleResource.str ("x.js")] }

/-- MV3 web_accessible_resources scenario: an object entry with a resources array. -/
def mv3WarManifest : ExtensionManifest :=
  { web_accessible_resources :=
      some [WebAccessibleResource.obj ["x.js"] (some ["<all_urls>"]) none none] }

/-- Manifest whose only triggering field is side_panel.default_path. -/
def sidePanelOnlyManifest : ExtensionManifest :=
  { side_panel := some { default_path := "sidebar.html" } }

/-- Manifest whose only triggering field is chrome_url_overrides.newtab. -/
def newtabOnlyManifest : ExtensionManifest :=
  { chrome_url_overrides := some { newtab := some ("newtab.html") } }

/-- Demo filesystem for the loader scenarios: a single file whose content is not
    well-formed JSON; every other path does not exist. -/
def demoFs : String → Option String :=
  fun p => if p == "ext/manifest.json" then some ("not json") else none

/-- Demo JSON parse behavior: parsing always fails with one underlying error. -/
def demoParse : String → Except String ExtensionManifest :=
  fun _ => Except.error ("Unexpected token in JSON")

/-- Claim C1 counterexample: a whitespace-only omnibox.keyword and a
    whitespace-only chrome_settings_overrides.homepage each trigger a capability,
    because the source checks these two fields for JavaScript truthiness rather
    than with the nonempty-string predicate; the claim asserts both trigger
    nothing. -/
theorem C1_counterexample :
    analyzeExtensionManifest { omnibox := some { keyword := "   " } } {} =
      [{ capability := "omnibox", description := "Omnibox keyword integration" }] ∧
    analyzeExtensionManifest { chrome_settings_overrides := some { homepage := some ("   ") } } {} =
      [{ capability := "settings_homepage",
         description := "Browser settings override: homepage" }] := by
  constructor
  · decide
  · decide

/-- Claim C1 (amended): a whitespace-only value behaves as an absent value for
    every trigger field that is guarded by the nonempty-string predicate (the
    popup aliases, background page, scripts and service_worker, devtools_page,
    options_ui.page and options_page, side_panel.default_path and
    sidebar_action.default_panel, the three chrome_url_overrides fields,
    sandbox.pages entries and web_accessible_resources entries): a manifest with
    all of these set to one whitespace-only string yields only the fallback
    record. The fields omnibox.keyword and chrome_settings_overrides.homepage are
    excluded: they are checked for truthiness, so whitespace-only strings there
    do trigger their capabilities. -/
theorem C1_whitespace_fields_inert (ws : String) (hws : isNonEmptyString ws = false)
    (opts : GetCapabilitiesOptions) :
    analyzeExtensionManifest (whitespaceFieldsManifest ws) opts =
      [{ capability := "manifest"
         description := "Basic extension manifest configuration"
         id := if opts.normalizeNames then some ("manifest") else none
         fields := if opts.includeFields then some [] else none
         compatibility := none }] := by
  apply analyze_no_triggers <;>
    simp [whitespaceFieldsManifest, backgroundTrigger, contentScriptsTrigger, popupTrigger,
      sidebarTrigger, devtoolsTrigger, optionsTrigger, newtabTrigger, bookmarksTrigger,
      historyTrigger, sandboxTrigger, webResourcesTrigger, warItemNonEmpty, omniboxTrigger,
      commandsTrigger, settingsHomepageTrigger, settingsSearchProviderTrigger,
      settingsStartupPagesTrigger, declarativeNetRequestTrigger, ttsEngineTrigger,
      hasNonEmptyString, hws]

/-- Claim C1 witness: the amended statement at the whitespace string of the claim
    and default options. -/
theorem C1_whitespace_fields_inert_witness :
    isNonEmptyString ("   ") = false ∧
    analyzeExtensionManifest (whitespaceFieldsManifest ("   ")) {} =
      [{ capability := "manifest"
         description := "Basic extension manifest configuration"
         id := if ({} : GetCapabilitiesOptions).normalizeNames then some ("manifest") else none
         fields := if ({} : GetCapabilitiesOptions).includeFields then some [] else none
         compatibility := none }] :=
  ⟨by decide, C1_whitespace_fields_inert ("   ") (by decide) {}⟩

/-- Claim C2: for both file-based entry points, a file whose content fails to
    parse yields the fallback list under strict false and re-raises the
    underlying parse failure unchanged under strict true; a missing file yields a
    descriptive not-found failure naming the path under strict true and the
    fallback list under strict false. -/
theorem C2_loader_strict_policy (fsFiles : String → Option String)
    (parseJson : String → Except String ExtensionManifest)
    (path : String) (opts : GetCapabilitiesOptions) :
    (∀ content err, fsFiles path = some content → parseJson content = Except.error err →
      getExtensionCapabilities fsFiles parseJson path { opts with strict := false } =
        Except.ok [{ capability := "manifest"
                     description := "Basic extension manifest configuration"
                     id := if opts.normalizeNames then some ("manifest") else none
                     fields := if opts.includeFields then some [] else none
                     compatibility := none }] ∧
      getExtensionCapabilitiesAsync fsFiles parseJson path { opts with strict := false } =
        Except.ok [{ capability := "manifest"
                     description := "Basic extension manifest configuration"
                     id := if opts.normalizeNames then some ("manifest") else none
                     fields := if opts.includeFields then some [] else none
                     compatibility := none }] ∧
      getExtensionCapabilities fsFiles parseJson path { opts with strict := true } =
        Except.error (LoaderError.parseFailure err) ∧
      getExtensionCapabilitiesAsync fsFiles parseJson path { opts with strict := true } =
        Except.error (LoaderError.parseFailure err)) ∧
    (fsFiles path = none →
      getExtensionCapabilities fsFiles parseJson path { opts with strict := true } =
        Except.error (LoaderError.notFound ("Manifest file not found at: " ++ path)) ∧
      getExtensionCapabilitiesAsync fsFiles parseJson path { opts with strict := true } =
        Except.error (LoaderError.notFound ("Manifest file not found at: " ++ path)) ∧
      getExtensionCapabilities fsFiles parseJson path { opts with strict := false } =
        Except.ok [{ capability := "manifest"
                     description := "Basic extension manifest configuration"
                     id := if opts.normalizeNames then some ("manifest") else none
                     fields := if opts.includeFields then some [] else none
                     compatibility := none }] ∧
      getExtensionCapabilitiesAsync fsFiles parseJson path { opts with strict := false } =
        Except.ok [{ capability := "manifest"
                     description := "Basic extension manifest configuration"
                     id := if opts.normalizeNames then some ("manifest") else none
                     fields := if opts.includeFields then some [] else none
                     compatibility := none }]) := by
  constructor
  · intro content err hex hparse
    refine ⟨?_, ?_, ?_, ?_⟩ <;>
      simp [getExtensionCapabilities, getExtensionCapabilitiesAsync, hex, hparse]
  · intro hnone
    refine ⟨?_, ?_, ?_, ?_⟩ <;>
      simp [getExtensionCapabilities, getExtensionCapabilitiesAsync, hnone]

/-- Claim C2 witness: the loader policy at a concrete filesystem with one
    non-JSON file and a missing path. -/
theorem C2_loader_strict_policy_witness :
    demoFs ("ext/manifest.json") = some ("not json") ∧
    demoParse ("not json") = Except.error ("Unexpected token in JSON") ∧
    demoFs ("missing/manifest.json") = none ∧
    getExtensionCapabilities demoFs demoParse ("ext/manifest.json") {} =
      Except.ok [{ capability := "manifest"
                   description := "Basic extension manifest configuration" }] ∧
    getExtensionCapabilities demoFs demoParse ("ext/manifest.json") { strict := true } =
      Except.error (LoaderError.parseFailure ("Unexpected token in JSON")) ∧
    getExtensionCapabilitiesAsync demoFs demoParse ("ext/manifest.json") { strict := true } =
      Except.error (LoaderError.parseFailure ("Unexpected token in JSON")) ∧
    getExtensionCapabilities demoFs demoParse ("missing/manifest.json") { strict := true } =
      Except.error (LoaderError.notFound ("Manifest file not found at: missing/manifest.json")) ∧
    getExtensionCapabilitiesAsync demoFs demoParse ("missing/manifest.json") {} =
      Except.ok [{ capability := "manifest"
                   description := "Basic extension manifest configuration" }] :=
  ⟨rfl, rfl, rfl,
    ((C2_loader_strict_policy demoFs demoParse ("ext/manifest.json") {}).1
      ("not json") ("Unexpected token in JSON") rfl rfl).1,
    ((C2_loader_strict_policy demoFs demoParse ("ext/manifest.json") {}).1
      ("not json") ("Unexpected token in JSON") rfl rfl).2.2.1,
    ((C2_loader_strict_policy demoFs demoParse ("ext/manifest.json") {}).1
      ("not json") ("Unexpected token in JSON") rfl rfl).2.2.2,
    ((C2_loader_strict_policy demoFs demoParse ("missing/manifest.json") {}).2 rfl).1,
    ((C2_loader_strict_policy demoFs demoParse ("missing/manifest.json") {}).2 rfl).2.2.2⟩

/-- Claim C3: when no capability rule trigger is satisfied, the output is exactly
    the single fallback record, which carries id when normalizeNames is set and an
    empty fields list when includeFields is set, and never carries compatibility. -/
theorem C3_fallback_only (m : ExtensionManifest) (opts : GetCapabilitiesOptions)
    (h1 : backgroundTrigger m = false) (h2 : contentScriptsTrigger m = false)
    (h3 : popupTrigger m = false) (h4 : sidebarTrigger m = false)
    (h5 : devtoolsTrigger m = false) (h6 : optionsTrigger m = false)
    (h7 : newtabTrigger m = false) (h8 : bookmarksTrigger m = false)
    (h9 : historyTrigger m = false) (h10 : sandboxTrigger m = false)
    (h11 : webResourcesTrigger m = false) (h12 : omniboxTrigger m = false)
    (h13 : commandsTrigger m = false) (h14 : settingsHomepageTrigger m = false)
    (h15 : settingsSearchProviderTrigger m = false)
    (h16 : settingsStartupPagesTrigger m = false)
    (h17 : declarativeNetRequestTrigger m = false) (h18 : ttsEngineTrigger m = false) :
    analyzeExtensionManifest m opts =
      [{ capability := "manifest"
         description := "Basic extension manifest configuration"
         id := if opts.normalizeNames then some ("manifest") else none
         fields := if opts.includeFields then some [] else none
         compatibility := none }] :=
  analyze_no_triggers m opts h1 h2 h3 h4 h5 h6 h7 h8 h9 h10 h11 h12 h13 h14 h15 h16 h17 h18

/-- Claim C3 witness: the empty manifest with every shaping option on carries id
    and the empty fields list, but no compatibility. -/
theorem C3_fallback_only_witness :
    backgroundTrigger {} = false ∧ contentScriptsTrigger {} = false ∧
    popupTrigger {} = false ∧ sidebarTrigger {} = false ∧ devtoolsTrigger {} = false ∧
    optionsTrigger {} = false ∧ newtabTrigger {} = false ∧ bookmarksTrigger {} = false ∧
    historyTrigger {} = false ∧ sandboxTrigger {} = false ∧ webResourcesTrigger {} = false ∧
    omniboxTrigger {} = false ∧ commandsTrigger {} = false ∧
    settingsHomepageTrigger {} = false ∧ settingsSearchProviderTrigger {} = false ∧
    settingsStartupPagesTrigger {} = false ∧ declarativeNetRequestTrigger {} = false ∧
    ttsEngineTrigger {} = false ∧
    analyzeExtensionManifest {}
        { strict := false, includeFields := true, normalizeNames := true,
          includeCompatibility := true } =
      [{ capability := "manifest"
         description := "Basic extension manifest configuration"
         id := some ("manifest")
         fields := some []
         compatibility := none }] :=
  ⟨rfl, rfl, rfl, rfl, rfl, rfl, rfl, rfl, rfl, rfl, rfl, rfl, rfl, rfl, rfl, rfl, rfl, rfl,
    C3_fallback_only {} _ rfl rfl rfl rfl rfl rfl rfl rfl rfl rfl rfl rfl rfl rfl rfl rfl rfl rfl⟩

/-- Claim C4: with at least one triggered capability, the output is sorted
    ascending, case-insensitively, by id when present else capability; in
    particular a manifest with both devtools_page and action.default_popup set,
    with normalizeNames on, lists the action_popup record before the
    devtools_page record. -/
theorem C4_sorted_output (m : ExtensionManifest) (opts : GetCapabilitiesOptions)
    (_h : anyTrigger m = true) :
    List.Sorted capabilityLE (analyzeExtensionManifest m opts) ∧
    analyzeExtensionManifest devtoolsPopupManifest { normalizeNames := true } =
      [{ capability := "popup", description := "Toolbar popup UI", id := some ("action_popup") },
       { capability := "devtools", description := "Developer tools panel",
         id := some ("devtools_page") }] :=
  ⟨analyze_sorted m opts, by decide⟩

/-- Claim C4 witness: the sort property at the devtools-plus-popup manifest. -/
theorem C4_sorted_output_witness :
    anyTrigger devtoolsPopupManifest = true ∧
    (List.Sorted capabilityLE
        (analyzeExtensionManifest devtoolsPopupManifest { normalizeNames := true }) ∧
      analyzeExtensionManifest devtoolsPopupManifest { normalizeNames := true } =
        [{ capability := "popup", description := "Toolbar popup UI",
           id := some ("action_popup") },
         { capability := "devtools", description := "Developer tools panel",
           id := some ("devtools_page") }]) :=
  ⟨by decide, C4_sorted_output devtoolsPopupManifest { normalizeNames := true } (by decide)⟩

/-- Claim C5: for every manifest and options, no two records of the detector
    output share the same capability key. -/
theorem C5_no_duplicate_capability (m : ExtensionManifest) (opts : GetCapabilitiesOptions) :
    ((analyzeExtensionManifest m opts).map (fun r => r.capability)).Nodup := by
  unfold analyzeExtensionManifest
  split
  · have hperm :=
      (List.perm_insertionSort capabilityLE ((buildCapabilityMap m opts).map Prod.snd)).map
        (fun r => r.capability)
    rw [hperm.nodup_iff, List.map_map]
    have heq : List.map ((fun r => r.capability) ∘ Prod.snd) (buildCapabilityMap m opts) =
        (buildCapabilityMap m opts).map Prod.fst :=
      List.map_congr_left (fun p hp => (mapKeysOK_build m opts).2 p hp)
    rw [heq]
    exact (mapKeysOK_build m opts).1
  · simp

/-- Claim C5 witness: the no-duplicates invariant at a three-capability manifest. -/
theorem C5_no_duplicate_capability_witness :
    ((analyzeExtensionManifest backgroundContentPopupManifest {}).map
        (fun r => r.capability)).Nodup :=
  C5_no_duplicate_capability backgroundContentPopupManifest {}

/-- Claim C6: for every manifest and options, the detector output has length at
    least one; the fallback record is present when no rule triggers. -/
theorem C6_output_nonempty (m : ExtensionManifest) (opts : GetCapabilitiesOptions) :
    0 < (analyzeExtensionManifest m opts).length := by
  unfold analyzeExtensionManifest
  split
  · next h =>
      rw [(List.perm_insertionSort capabilityLE _).length_eq, List.length_map]
      exact h
  · simp

/-- Claim C6 witness: the nonempty-output invariant at the empty manifest. -/
theorem C6_output_nonempty_witness :
    0 < (analyzeExtensionManifest {} {}).length :=
  C6_output_nonempty {} {}

/-- Claim C7: the manifest with a background service worker, one content script
    and an action popup yields exactly three records, with capability keys
    background, content_scripts and popup, each with the fixed description of its
    rule. -/
theorem C7_three_records :
    analyzeExtensionManifest backgroundContentPopupManifest {} =
      [{ capability := "background"
         description := "Background service worker or page for persistent functionality" },
       { capability := "content_scripts"
         description := "Content scripts that run on web pages to interact with page content" },
       { capability := "popup", description := "Toolbar popup UI" }] := by
  decide

/-- Claim C8: a manifest whose web_accessible_resources array has an entry that is
    a nonempty string (MV2 form) or an object whose resources array contains a
    nonempty string (MV3 form) yields the web_resources capability. -/
theorem C8_war_both_dialects (m : ExtensionManifest) (opts : GetCapabilitiesOptions)
    (l : List WebAccessibleResource) (e : WebAccessibleResource)
    (hwar : m.web_accessible_resources = some l) (hmem : e ∈ l)
    (he : (∃ s, e = WebAccessibleResource.str s ∧ isNonEmptyString s = true) ∨
      (∃ rs ms ids dyn, e = WebAccessibleResource.obj rs ms ids dyn ∧
        rs.any (fun r => isNonEmptyString r) = true)) :
    "web_resources" ∈ (analyzeExtensionManifest m opts).map (fun r => r.capability) := by
  have htrig : webResourcesTrigger m = true := by
    have hlen : 0 < l.length := List.length_pos.mpr (List.ne_nil_of_mem hmem)
    have hany : l.any warItemNonEmpty = true := by
      refine List.any_eq_true.mpr ⟨e, hmem, ?_⟩
      rcases he with ⟨s, rfl, hs⟩ | ⟨rs, ms, ids, dyn, rfl, hrs⟩
      · simpa [warItemNonEmpty] using hs
      · simpa [warItemNonEmpty] using hrs
    unfold webResourcesTrigger
    rw [hwar]
    simp [hlen, hany]
  have hkey : "web_resources" ∈ (buildCapabilityMap m opts).map Prod.fst := by
    unfold buildCapabilityMap
    apply mem_keys_applyRule_mono
    apply mem_keys_applyRule_mono
    apply mem_keys_applyRule_mono
    apply mem_keys_applyRule_mono
    apply mem_keys_applyRule_mono
    apply mem_keys_applyRule_mono
    apply mem_keys_applyRule_mono
    rw [htrig]
    exact mem_keys_applyRule_self opts ("web_resources") _ _ _ _
  exact cap_mem_analyze m opts ("web_resources") hkey

/-- Claim C8 witness: both the MV2 string form and the MV3 object form at concrete
    manifests. -/
theorem C8_war_both_dialects_witness :
    ("web_resources" ∈ (analyzeExtensionManifest mv2WarManifest {}).map
        (fun r => r.capability)) ∧
    ("web_resources" ∈ (analyzeExtensionManifest mv3WarManifest {}).map
        (fun r => r.capability)) :=
  ⟨C8_war_both_dialects mv2WarManifest {} _ _ rfl (List.mem_singleton.mpr rfl)
      (Or.inl ⟨"x.js", rfl, by decide⟩),
    C8_war_both_dialects mv3WarManifest {} _ _ rfl (List.mem_singleton.mpr rfl)
      (Or.inr ⟨["x.js"], some ["<all_urls>"], none, none, rfl, by decide⟩)⟩

/-- Claim C9: with includeCompatibility requested, a manifest whose only satisfied
    rule is the sidebar rule yields a single sidebar record whose compatibility has
    safari false and the fixed sidebar notes and docs text of the static table. -/
theorem C9_sidebar_compatibility (m : ExtensionManifest) (opts : GetCapabilitiesOptions)
    (hc : opts.includeCompatibility = true) (hs : sidebarTrigger m = true)
    (h1 : backgroundTrigger m = false) (h2 : contentScriptsTrigger m = false)
    (h3 : popupTrigger m = false) (h5 : devtoolsTrigger m = false)
    (h6 : optionsTrigger m = false) (h7 : newtabTrigger m = false)
    (h8 : bookmarksTrigger m = false) (h9 : historyTrigger m = false)
    (h10 : sandboxTrigger m = false) (h11 : webResourcesTrigger m = false)
    (h12 : omniboxTrigger m = false) (h13 : commandsTrigger m = false)
    (h14 : settingsHomepageTrigger m = false) (h15 : settingsSearchProviderTrigger m = false)
    (h16 : settingsStartupPagesTrigger m = false)
    (h17 : declarativeNetRequestTrigger m = false) (h18 : ttsEngineTrigger m = false) :
    (analyzeExtensionManifest m opts).map (fun r => (r.capability, r.compatibility)) =
      [("sidebar",
        some { safari := some false
               notes := some ("Chromium uses side_panel; Firefox uses sidebar_action. Safari does not provide an equivalent sidebar UI API.")
               docs := some ("https://developer.mozilla.org/docs/Mozilla/Add-ons/WebExtensions/user_interface") })] := by
  have hb : buildCapabilityMap m opts =
      [("sidebar", mkCapabilityEntry ("sidebar") ("Side panel UI") opts
        (some ["side_panel.default_path", "sidebar_action.default_panel"]) (some ("sidebar")))] := by
    simp [buildCapabilityMap, applyRule, pushCapability, mapSet, h1, h2, h3, hs, h5, h6, h7,
      h8, h9, h10, h11, h12, h13, h14, h15, h16, h17, h18]
  unfold analyzeExtensionManifest
  rw [hb]
  simp [List.insertionSort, List.orderedInsert, mkCapabilityEntry, hc]
  rfl

/-- Claim C9 witness: the side_panel.default_path manifest with
    includeCompatibility on. -/
theorem C9_sidebar_compatibility_witness :
    ({ includeCompatibility := true } : GetCapabilitiesOptions).includeCompatibility = true ∧
    sidebarTrigger sidePanelOnlyManifest = true ∧
    (analyzeExtensionManifest sidePanelOnlyManifest { includeCompatibility := true }).map
        (fun r => (r.capability, r.compatibility)) =
      [("sidebar",
        some { safari := some false
               notes := some ("Chromium uses side_panel; Firefox uses sidebar_action. Safari does not provide an equivalent sidebar UI API.")
               docs := some ("https://developer.mozilla.org/docs/Mozilla/Add-ons/WebExtensions/user_interface") })] :=
  ⟨rfl, by decide,
    C9_sidebar_compatibility sidePanelOnlyManifest { includeCompatibility := true } rfl
      (by decide) rfl rfl rfl rfl rfl rfl rfl rfl rfl rfl rfl rfl rfl rfl rfl rfl rfl⟩

/-- Claim C10: the compatibility lookup is keyed by the normalized id of the rule
    even when normalizeNames is off and no id is attached to the record; the
    newtab-only manifest with includeCompatibility on and normalizeNames off
    yields a record without id that carries the entry stored under
    chrome_url_overrides.newtab. -/
theorem C10_compat_keyed_by_normalized_id :
    (∀ (k d nid : String) (f : Option (List String)) (s i : Bool),
      (mkCapabilityEntry k d { strict := s, includeFields := i, normalizeNames := false, includeCompatibility := true } f (some nid)).id = none ∧
      (mkCapabilityEntry k d { strict := s, includeFields := i, normalizeNames := false, includeCompatibility := true } f (some nid)).compatibility = CAP_COMPAT nid) ∧
    (analyzeExtensionManifest newtabOnlyManifest { includeCompatibility := true }).map
        (fun r => (r.capability, r.id, r.compatibility)) =
      [("newtab", none,
        some { safari := some false
               notes := some ("Safari does not support chrome_url_overrides.")
               docs := some ("https://developer.mozilla.org/docs/Mozilla/Add-ons/WebExtensions/manifest.json/chrome_url_overrides") })] := by
  constructor
  · intro k d nid f s i
    constructor
    · simp [mkCapabilityEntry]
    · simp [mkCapabilityEntry]
  · decide

/-- Claim C10 witness: the general part applied at the newtab rule data. -/
theorem C10_compat_keyed_by_normalized_id_witness :
    (mkCapabilityEntry ("newtab") ("New tab page override")
        { strict := false, includeFields := false, normalizeNames := false, includeCompatibility := true }
        (some ["chrome_url_overrides.newtab"]) (some ("chrome_url_overrides.newtab"))).id =
      none ∧
    (mkCapabilityEntry ("newtab") ("New tab page override")
        { strict := false, includeFields := false, normalizeNames := false, includeCompatibility := true }
        (some ["chrome_url_overrides.newtab"]) (some ("chrome_url_overrides.newtab"))).compatibility =
      CAP_COMPAT ("chrome_url_overrides.newtab") :=
  C10_compat_keyed_by_normalized_id.1 ("newtab") ("New tab page override")
    ("chrome_url_overrides.newtab") (some ["chrome_url_overrides.newtab"]) false false
